import Mathlib

/-!
# Verification of the multi-browser process manager (`src/core/browser_manager.py`)

This file gives a shallow embedding, in Lean 4, of the parts of
`BrowserManager` that the specification's claims are about: argv
construction, launch confirmation (settle + poll), the instance registry,
close/cleanup, the running-status query with its external quick check, and
discovery of externally launched browsers with its profile-identity
resolution (explicit flags, regex fallback, open-file/claim-order
guessing).

Python strings become `String`, argv lists become `List String`, the
process table (psutil) becomes an explicit `List Proc`, and every OS side
effect (liveness probes, terminate/kill outcomes, `open_files`) becomes a
field of an explicit `World` environment.  The registry
(`running_instances`, a Python `dict`) becomes an association list with
Python-dict update semantics (replace in place, else append).
-/

namespace MulBrowsers

/-! ### String and path helpers (Python `in`, `startswith`, `split`, `os.path`) -/

/-- Python's substring test `needle in hay` on the underlying character
lists (`""` is a substring of everything, as in Python). -/
def infixChars (needle : List Char) : List Char → Bool
  | [] => needle.isEmpty
  | h :: t => needle.isPrefixOf (h :: t) || infixChars needle t

/-- Python `needle in hay` for strings. -/
def strIn (needle hay : String) : Bool :=
  infixChars needle.data hay.data

/-- Python `s.startswith(pre)`. -/
def startsWith (pre s : String) : Bool :=
  pre.data.isPrefixOf s.data

/-- Python `s.lower()` (ASCII case folding, as the process names here
are ASCII). -/
def toLowerStr (s : String) : String :=
  String.mk (s.data.map Char.toLower)

/-- One fuel step of Python `s.replace(needle, repl)`: replace
non-overlapping occurrences left to right.  The fuel is the length of
the remaining text, so it never runs out. -/
def replaceCharsFuel (needle repl : List Char) : Nat → List Char → List Char
  | 0, l => l
  | fuel + 1, l =>
    match l with
    | [] => []
    | c :: cs =>
      if needle.isPrefixOf (c :: cs) then
        repl ++ replaceCharsFuel needle repl fuel (cs.drop (needle.length - 1))
      else c :: replaceCharsFuel needle repl fuel cs

/-- Python `s.replace(needle, repl)` for a nonempty needle (both call
sites of the source pass nonempty needles). -/
def replaceStr (s needle repl : String) : String :=
  if needle.data.isEmpty then s
  else String.mk (replaceCharsFuel needle.data repl.data s.data.length s.data)

/-- Python `s.split('/')`. -/
def splitSlash : List Char → List (List Char)
  | [] => [[]]
  | c :: cs =>
    match splitSlash cs with
    | [] => [[]]
    | h :: t => if c = '/' then [] :: h :: t else (c :: h) :: t

/-- Python `s.split('=', 1)[1]`: everything after the first `'='`
(total: yields `""` when there is no `'='`). -/
def afterFirstEq (s : String) : String :=
  String.mk (((s.data).dropWhile (· ≠ '=')).drop 1)

/-- Python `' '.join(args)`. -/
def joinArgs (args : List String) : String :=
  String.intercalate " " args

/-- Python `s.replace(' ', '\\ ')` as used on the data-directory path. -/
def escapeSpaces (s : String) : String :=
  replaceStr s " " "\\ "

/-- Python whitespace characters (the ASCII set matched by `str.strip`
and `\s`). -/
def pyWhitespace (c : Char) : Bool :=
  c = ' ' || c = '\t' || c = '\n' || c = '\r' || c = '\x0b' || c = '\x0c'

/-- Python `s.strip()`. -/
def stripWS (s : String) : String :=
  String.mk (((s.data.dropWhile pyWhitespace).reverse.dropWhile pyWhitespace).reverse)

/-- Embedding of `os.path.dirname` for POSIX paths: the part before the last slash,
with trailing slashes stripped unless the head is all slashes. -/
def dirname (s : String) : String :=
  let rev := s.data.reverse
  if rev.all (· ≠ '/') then ""
  else
    let headRev := rev.dropWhile (· ≠ '/')
    let stripped := headRev.dropWhile (· = '/')
    if stripped.isEmpty then String.mk headRev.reverse
    else String.mk stripped.reverse

/-- Embedding of `os.path.join a b` for POSIX paths with a relative or absolute
second component. -/
def pathJoin (a b : String) : String :=
  if startsWith "/" b then b
  else if a = "" then b
  else if a.data.getLast? = some '/' then a ++ b
  else a ++ "/" ++ b

/-- Python truthiness of an optional string (`None` and `""` are falsy). -/
def truthyStr : Option String → Bool
  | none => false
  | some s => s ≠ ""

/-! ### Dictionary operations (Python `dict` keyed by profile name) -/

/-- Embedding of `k in d` / `d.get(k)`. -/
def dictLookup {β : Type} (k : String) : List (String × β) → Option β
  | [] => none
  | (k', v) :: t => if k' = k then some v else dictLookup k t

/-- Embedding of `d[k] = v`: replace in place if the key exists, else append
(Python dicts preserve insertion order). -/
def dictInsert {β : Type} (k : String) (v : β) : List (String × β) → List (String × β)
  | [] => [(k, v)]
  | (k', v') :: t => if k' = k then (k, v) :: t else (k', v') :: dictInsert k v t

/-- Embedding of `del d[k]`. -/
def dictErase {β : Type} (k : String) : List (String × β) → List (String × β)
  | [] => []
  | (k', v') :: t => if k' = k then t else (k', v') :: dictErase k t

/-- The keys of an association-list dictionary. -/
def dictKeys {β : Type} (d : List (String × β)) : List String :=
  d.map Prod.fst

/-! ### Data model -/

/-- The fields of `ProfileInfo` (from `src/core/profile_manager.py`) that
`BrowserManager` reads: the directory-derived `name`, the profile
directory `path`, and the human `display_name`. -/
structure ProfileInfo where
  name : String
  path : String
  display_name : String
deriving Repr, DecidableEq

/-- One entry of the psutil process table as consumed via
`psutil.process_iter(['pid', 'name', 'cmdline', 'create_time'])`.
Processes that raise `NoSuchProcess`/`AccessDenied`/`ZombieProcess`
during iteration are skipped by every loop in the source, so the table
holds only the accessible processes. -/
structure Proc where
  pid : Nat
  name : String
  cmdline : List String
  create_time : Nat
deriving Repr, DecidableEq

/-- Embedding of `BrowserInstance` (src/core/browser_manager.py, lines 17-25).  The
`process` handle of the source is identified by its PID, which is the
same number as `process_id` on every construction site. -/
structure BrowserInstance where
  profile_name : String
  process_id : Nat
  start_time : Nat
  user_data_dir : String
  command_line : List String
deriving Repr, DecidableEq

/-- The mutable state of a `BrowserManager`: the registry
`running_instances` and the Chrome executable located once at startup. -/
structure MgrState where
  running_instances : List (String × BrowserInstance)
  chrome_executable : Option String
deriving Repr, DecidableEq

/-- Result of a `psutil.Process.is_running()` probe: the call returns a
boolean or raises `NoSuchProcess`. -/
inductive LiveRes
  | up
  | down
  | gone
deriving Repr, DecidableEq

/-- Result of one `terminate()`/`kill()` call: normal return,
`NoSuchProcess`, or some other exception. -/
inductive CallRes
  | ok
  | noSuch
  | err
deriving Repr, DecidableEq

/-- Behaviour of the OS for `close_browser`'s sequence of calls against
one process: what `terminate()` does, whether `wait(timeout=10)` times
out, and what `kill()` does. -/
structure TermBehavior where
  terminate : CallRes
  waitTimesOut : Bool
  kill : CallRes
deriving Repr, DecidableEq

/-- Result of `psutil.Process(pid).open_files()` inside the profile
guesser: a file list, `AccessDenied`/`OSError`, or an exception from the
surrounding `try` (e.g. the process vanished). -/
inductive OpenFilesRes
  | files (paths : List String)
  | denied
  | raised
deriving Repr, DecidableEq

/-- The external world an operation runs against: the process table, the
per-PID probe outcomes, and the platform-derived base directories
(`os.path.expanduser` results). -/
structure World where
  table : List Proc
  snapshots : List (List Proc)
  live : Nat → LiveRes
  term : Nat → TermBehavior
  openFiles : Nat → OpenFilesRes
  baseUserDataDir : String
  guessChromeDataDir : String
  now : Nat
  launcherPid : Nat
  isDarwin : Bool
  infoOk : Nat → Bool

/-! ### Launch argv construction (start_browser, lines 79-153) -/

/-- The `proxy_config` dict with the defaults the source reads out of it
(`.get('type', 'http')`, `.get('server', '')`, `.get('port', 8080)`). -/
structure ProxyConfig where
  type_ : String := "http"
  server : String := ""
  port : Nat := 8080
  username : String := ""
  password : String := ""
deriving Repr, DecidableEq

/-- The argv built by `start_browser` (lines 79-153): executable,
independent user-data dir, optional locale, proxy and window-size flags,
pass-through custom args, the fixed baseline flags, and `--new-window`
on macOS.  Proxy credentials are read but never appended (line 131-133);
an unknown proxy type appends nothing. -/
def buildCmd (exe : String) (independentDir : String) (language : Option String)
    (proxy : Option ProxyConfig) (windowSize : Option (Nat × Nat))
    (customArgs : Option (List String)) (isDarwin : Bool) : List String :=
  let cmd := [exe, "--user-data-dir=" ++ independentDir]
  let cmd := cmd ++
    (match language with
     | some l => if l = "" then [] else ["--lang=" ++ l]
     | none => [])
  let cmd := cmd ++
    (match proxy with
     | some pc =>
       if pc.server = "" then []
       else if pc.type_ = "http" || pc.type_ = "https" then
         ["--proxy-server=http://" ++ pc.server ++ ":" ++ toString pc.port]
       else if pc.type_ = "socks5" then
         ["--proxy-server=socks5://" ++ pc.server ++ ":" ++ toString pc.port]
       else if pc.type_ = "socks4" then
         ["--proxy-server=socks4://" ++ pc.server ++ ":" ++ toString pc.port]
       else []
     | none => [])
  let cmd := cmd ++
    (match windowSize with
     | some (w, h) => ["--window-size=" ++ toString w ++ "," ++ toString h]
     | none => [])
  let cmd := cmd ++
    (match customArgs with
     | some args => args
     | none => [])
  let cmd := cmd ++ ["--no-first-run", "--no-default-browser-check"]
  if isDarwin then cmd ++ ["--new-window"] else cmd

/-! ### Launch confirmation (settle + poll, lines 180-291) -/

/-- One iteration of `_check_chrome_running_for_independent_dir`'s scan
(lines 226-252) over one snapshot of the process table: is there a
process whose name contains `chrome` (case-insensitively), with a
nonempty command line that mentions the independent user-data directory
(space-escaped or verbatim) and carries no `--type=` marker? -/
def checkOnce (independentDir : String) (table : List Proc) : Bool :=
  table.any fun p =>
    strIn "chrome" (toLowerStr p.name) && !p.cmdline.isEmpty &&
      (let cs := joinArgs p.cmdline
       (strIn (escapeSpaces independentDir) cs || strIn independentDir cs) &&
         !strIn "--type=" cs)

/-- Embedding of `_check_chrome_running_for_independent_dir` (lines 216-262): poll up
to 15 snapshots of the process table, 0.5 s apart, reporting success as
soon as one snapshot contains a matching main process.  The snapshot
sequence is supplied by the `World`. -/
def checkLoop (independentDir : String) (snapshots : List (List Proc)) : Bool :=
  snapshots.any (checkOnce independentDir)

/-- Embedding of `_find_chrome_process_for_independent_dir` (lines 264-291): the first
process named exactly `"Google Chrome"` whose nonempty command line
mentions the independent directory and has no `--type=` marker; `None`
otherwise. -/
def findChromeProc (independentDir : String) : List Proc → Option Proc
  | [] => none
  | p :: rest =>
    if p.name = "Google Chrome" && !p.cmdline.isEmpty &&
        (let cs := joinArgs p.cmdline
         (strIn (escapeSpaces independentDir) cs || strIn independentDir cs) &&
           !strIn "--type=" cs)
    then some p
    else findChromeProc independentDir rest

/-- The independent user-data directory `start_browser` provisions for a
profile (lines 84-88): a sibling `Chrome_Instance_<name>` of the
profile's parent user-data directory. -/
def independentDirFor (profile : ProfileInfo) : String :=
  pathJoin (dirname (dirname profile.path)) ("Chrome_Instance_" ++ profile.name)

/-- Which branch of `start_browser` produced the result.  The source
returns a bare bool and distinguishes the branches only through its log
messages; `noExecutable` and `alreadyRunning` are the two rejections
taken before `subprocess.Popen` runs. -/
inductive StartOutcome
  | noExecutable
  | alreadyRunning
  | confirmed
  | unconfirmedSuccess
  | launchFailed
deriving Repr, DecidableEq

/-- The boolean `start_browser` actually returns for each branch. -/
def StartOutcome.toBool : StartOutcome → Bool
  | .confirmed => true
  | .unconfirmedSuccess => true
  | _ => false

/-- Result of a launch: the branch taken, whether a child process was
spawned (`subprocess.Popen` was reached), and the manager state after
the call. -/
structure StartResult where
  outcome : StartOutcome
  spawned : Bool
  state : MgrState
deriving Repr, DecidableEq

/-- Embedding of `start_browser` (lines 64-214).  Filesystem provisioning (makedirs,
profile copy) has no bearing on the return value or the registry and is
not modelled.  After the spawn, the settle+poll loop (`checkLoop`) must
confirm a process using the independent directory; only then is the
owning process looked up (`findChromeProc`) and—when found—inserted into
the registry under the profile's name with the found process's PID.
When the check succeeds but the lookup fails, the source still returns
`True` (line 205) without touching the registry. -/
def start_browser (s : MgrState) (profile : ProfileInfo) (language : Option String)
    (proxy : Option ProxyConfig) (windowSize : Option (Nat × Nat))
    (customArgs : Option (List String)) (w : World) : StartResult :=
  match s.chrome_executable with
  | none => ⟨.noExecutable, false, s⟩
  | some exe =>
    if (dictLookup profile.name s.running_instances).isSome then
      ⟨.alreadyRunning, false, s⟩
    else
      let independentDir := independentDirFor profile
      let cmd := buildCmd exe independentDir language proxy windowSize customArgs w.isDarwin
      if checkLoop independentDir w.snapshots then
        match findChromeProc independentDir w.table with
        | some p =>
          let inst : BrowserInstance :=
            ⟨profile.name, p.pid, w.now, independentDir, cmd⟩
          ⟨.confirmed, true,
           { s with running_instances := dictInsert profile.name inst s.running_instances }⟩
        | none => ⟨.unconfirmedSuccess, true, s⟩
      else ⟨.launchFailed, true, s⟩

/-! ### close_browser (lines 293-329) -/

/-- The combined outcome of the termination calls `close_browser` makes
for one instance: `kill()` when forced, otherwise `terminate()` followed
by `wait(timeout=10)` and, on timeout, `kill()`.  Any `NoSuchProcess`
from these calls surfaces as `.noSuch`; any other exception as `.err`. -/
def closeAttempt (force : Bool) (tb : TermBehavior) : CallRes :=
  if force then tb.kill
  else
    match tb.terminate with
    | .ok => if tb.waitTimesOut then tb.kill else .ok
    | r => r

/-- Embedding of `close_browser` (lines 293-329): unknown names are rejected with
`False` and no state change; a successful or `NoSuchProcess` termination
removes the entry and returns `True`; any other exception leaves the
entry in place and returns `False`. -/
def close_browser (s : MgrState) (profile_name : String) (force : Bool)
    (w : World) : Bool × MgrState :=
  match dictLookup profile_name s.running_instances with
  | none => (false, s)
  | some inst =>
    match closeAttempt force (w.term inst.process_id) with
    | .err => (false, s)
    | _ =>
      (true, { s with running_instances := dictErase profile_name s.running_instances })

/-! ### Running-status query (lines 342-433) -/

/-- The token-level profile match of `_quick_check_external_browser_running`
(lines 417-424): a `--profile-directory` token whose immediate successor
equals the name, or an `=`-joined token whose value part equals it. -/
def tokenProfileMatch (profile_name : String) : List String → Bool
  | [] => false
  | a :: rest =>
    (a = "--profile-directory" && rest.head? = some profile_name)
      || (startsWith "--profile-directory=" a && afterFirstEq a = profile_name)
      || tokenProfileMatch profile_name rest

/-- Per-process body of `_quick_check_external_browser_running`
(lines 381-427).  A chrome-named process with a nonempty command line
matches if it uses the profile's independent `Chrome_Instance_` directory
as a main process; otherwise, if its command line mentions the base
user-data directory, `"Default"` matches when no `--profile-directory=`
substring appears, and any other name matches through the substring
patterns or the token-level scan. -/
def quickCheckProc (profile_name base_user_data_dir independent_user_data_dir : String)
    (p : Proc) : Bool :=
  strIn "chrome" (toLowerStr p.name) && !p.cmdline.isEmpty &&
    (let cs := joinArgs p.cmdline
     if strIn independent_user_data_dir cs then !strIn "--type=" cs
     else if strIn base_user_data_dir cs then
       if profile_name = "Default" then !strIn "--profile-directory=" cs
       else
         strIn ("--profile-directory=" ++ profile_name) cs
           || strIn ("--profile-directory=\"" ++ profile_name ++ "\"") cs
           || tokenProfileMatch profile_name p.cmdline
     else false)

/-- Embedding of `_quick_check_external_browser_running` (lines 360-433): scan the
process table for a chrome process matching the profile, where the
independent directory is recomputed from the platform base directory
exactly as `start_browser` derives it. -/
def quick_check_external_browser_running (profile_name : String) (w : World) : Bool :=
  let independent_user_data_dir :=
    pathJoin (dirname w.baseUserDataDir) ("Chrome_Instance_" ++ profile_name)
  w.table.any (quickCheckProc profile_name w.baseUserDataDir independent_user_data_dir)

/-- Embedding of `is_browser_running` (lines 342-358): a registered name is answered
by an `is_running()` probe on its tracked process — the entry is deleted
only if that probe raises `NoSuchProcess` (probe result `.gone`); an
unregistered name falls through to the external quick check, which never
mutates the registry. -/
def is_browser_running (s : MgrState) (profile_name : String) (w : World) :
    Bool × MgrState :=
  match dictLookup profile_name s.running_instances with
  | some inst =>
    match w.live inst.process_id with
    | .up => (true, s)
    | .down => (false, s)
    | .gone =>
      (false, { s with running_instances := dictErase profile_name s.running_instances })
  | none => (quick_check_external_browser_running profile_name w, s)

/-! ### Cleanup of stopped instances (lines 728-746) -/

/-- Embedding of `check_and_cleanup_stopped_browsers` (lines 728-746): every registry
entry whose probe returns `False` or raises (`NoSuchProcess`/
`AccessDenied`/`ZombieProcess`) is deleted and reported; entries whose
probe returns `True` (or whose check dies on some other exception, which
the source only logs) are kept. -/
def check_and_cleanup_stopped_browsers (s : MgrState) (w : World) :
    List String × MgrState :=
  let stopped :=
    s.running_instances.filterMap fun kv =>
      match w.live kv.2.process_id with
      | .up => none
      | _ => some kv.1
  (stopped,
   { s with running_instances :=
       s.running_instances.filter fun kv =>
         match w.live kv.2.process_id with
         | .up => true
         | _ => false })

/-! ### Profile identity resolution inside discovery (lines 517-569) -/

/-- Method 1 of `discover_external_browsers` (lines 521-529): scan the
argv left to right; a `--profile-directory` token that still has a
successor yields that successor, an `=`-joined token yields everything
after its first `'='`; the first hit wins.  A trailing
`--profile-directory` with no successor fails both branches and the scan
moves on. -/
def method1 : List String → Option String
  | [] => none
  | a :: rest =>
    if a = "--profile-directory" then
      match rest with
      | v :: _ => some v
      | [] => none
    else if startsWith "--profile-directory=" a then some (afterFirstEq a)
    else method1 rest

/-- The literal part of the fallback pattern
`--profile-directory=(.+?)(?:\s--|\s-[^-]|$)` (line 535). -/
def litPD : List Char := "--profile-directory=".data

/-- Does the terminator `(?:\s--|\s-[^-]|$)` match at this point of the
string? -/
def pdTerminator : List Char → Bool
  | [] => true
  | wc :: '-' :: '-' :: _ => pyWhitespace wc
  | wc :: '-' :: c :: _ => pyWhitespace wc && c ≠ '-'
  | _ => false

/-- The lazy capture `(.+?)`: grow the (nonempty, newline-free) capture
one character at a time until the terminator matches the rest. -/
def pdCapture (acc : List Char) : List Char → Option (List Char)
  | [] => none
  | c :: cs =>
    if c = '\n' then none
    else if pdTerminator cs then some (acc ++ [c])
    else pdCapture (acc ++ [c]) cs

/-- Embedding of `re.search` of the fallback pattern (line 535): try every start
position left to right; at a position where the literal matches, take
the shortest capture whose remainder starts with the terminator, else
keep scanning. -/
def pdRegexSearch : List Char → Option (List Char)
  | [] => none
  | c :: cs =>
    if litPD.isPrefixOf (c :: cs) then
      match pdCapture [] ((c :: cs).drop litPD.length) with
      | some cap => some cap
      | none => pdRegexSearch cs
    else pdRegexSearch cs

/-- Method 2 of `discover_external_browsers` (lines 532-538):
`re.search(r'--profile-directory=(.+?)(?:\s--|\s-[^-]|$)', cmdline_str)`
with `.group(1).strip()` applied to a hit. -/
def regexFallback (cmdline_str : String) : Option String :=
  match pdRegexSearch cmdline_str.data with
  | some cap => some (stripWS (String.mk cap))
  | none => none

/-! ### Heuristic profile guessing (lines 580-642) -/

/-- The candidate a single open-file path contributes (lines 599-610):
when the path mentions the Chrome data directory, strip that directory
out, strip leading slashes, and take the first path component if at
least two remain. -/
def openFileCandidate (chrome_data_dir : String) (file_path : String) : Option String :=
  if strIn chrome_data_dir file_path then
    let relative :=
      String.mk ((replaceStr file_path chrome_data_dir "").data.dropWhile (· = '/'))
    let parts := (splitSlash relative.data).map String.mk
    match parts with
    | _ :: _ :: _ => some (parts.headI)
    | _ => none
  else none

/-- The open-files pass of `_guess_profile_for_simple_chrome`
(lines 593-619): the first file whose candidate component names a known
profile not yet recorded in `already_detected` wins. -/
def guessFromOpenFiles (chrome_data_dir : String) (profiles : List ProfileInfo)
    (already_detected : List String) : List String → Option String
  | [] => none
  | fp :: rest =>
    match openFileCandidate chrome_data_dir fp with
    | some cand =>
      if profiles.any (fun p => p.name = cand) && !already_detected.contains cand then
        some cand
      else guessFromOpenFiles chrome_data_dir profiles already_detected rest
    | none => guessFromOpenFiles chrome_data_dir profiles already_detected rest

/-- Python's `<` on strings: lexicographic comparison of code points. -/
def lexLtChars : List Char → List Char → Bool
  | [], [] => false
  | [], _ :: _ => true
  | _ :: _, [] => false
  | a :: as, b :: bs =>
    if a.toNat < b.toNat then true
    else if b.toNat < a.toNat then false
    else lexLtChars as bs

/-- Python `s <= t` on strings: not `t < s`. -/
def strLeB (s t : String) : Bool := !lexLtChars t.data s.data

/-- The sort key comparison of the fallback pass (line 633):
`(p.name != "Default", p.name) <= (q.name != "Default", q.name)` as
Python compares tuples — lexicographically with `False < True`. -/
def profLeB (p q : ProfileInfo) : Bool :=
  if (decide (p.name ≠ "Default")) = (decide (q.name ≠ "Default")) then
    strLeB p.name q.name
  else !(decide (p.name ≠ "Default"))

/-- The relation `profLeB` in decidable form for the sort. -/
def profLe (p q : ProfileInfo) : Prop := profLeB p q = true

instance : DecidableRel profLe :=
  fun p q => inferInstanceAs (Decidable (profLeB p q = true))

/-- The claim-order fallback of `_guess_profile_for_simple_chrome`
(lines 624-638): profiles neither recorded in `already_detected` nor
tracked in the registry, sorted stably ascending by
`(p.name != "Default", p.name)` — `Default` first, then lexical order —
and the first element taken if any.  (A stable sort by a total key
order is unique, so insertion sort here produces exactly the list
Python's `list.sort` produces.) -/
def guessFallback (profiles : List ProfileInfo) (already_detected : List String)
    (registry_keys : List String) : Option String :=
  let available := profiles.filter fun p =>
    !already_detected.contains p.name && !registry_keys.contains p.name
  match List.insertionSort profLe available with
  | [] => none
  | p :: _ => some p.name

/-- Embedding of `_guess_profile_for_simple_chrome` (lines 580-642): try the
open-files pass when the file list is accessible, fall back to
claim-order assignment; any exception outside the inner
`AccessDenied`/`OSError` handler makes the whole guess return `None`. -/
def guess_profile_for_simple_chrome (chrome_pid : Nat) (profiles : List ProfileInfo)
    (already_detected : List String) (registry_keys : List String)
    (chrome_data_dir : String) (ofr : Nat → OpenFilesRes) : Option String :=
  match ofr chrome_pid with
  | .raised => none
  | .denied => guessFallback profiles already_detected registry_keys
  | .files paths =>
    match guessFromOpenFiles chrome_data_dir profiles already_detected paths with
    | some n => some n
    | none => guessFallback profiles already_detected registry_keys

/-! ### Discovery of external browsers (lines 459-683) -/

/-- Python `s.endswith(suf)`. -/
def endsWith (suf s : String) : Bool :=
  suf.data.isSuffixOf s.data

/-- The main-process filter of `discover_external_browsers`
(lines 481-507): exactly named `"Google Chrome"`, nonempty command line,
and none of the helper markers in the joined command line. -/
def isMainChromeProc (p : Proc) : Bool :=
  p.name = "Google Chrome" && !p.cmdline.isEmpty &&
    (let cs := joinArgs p.cmdline
     !(strIn "--type=" cs || strIn "Helper" cs || strIn "GPU" cs
         || strIn "Renderer" cs || strIn "Plugin" cs))

/-- The per-process resolution chain of `discover_external_browsers`
(lines 517-569): method 1 (token scan), method 2 (regex fallback) when
method 1 produced nothing truthy, then the `elif` chain — a redundant
rerun of the token scan when `--profile-directory` occurs anywhere in
the joined command line, and the open-files/claim-order guess for a
bare single-token `... Google Chrome` launch. -/
def resolveDiscover (p : Proc) (profiles : List ProfileInfo)
    (detected_keys registry_keys : List String) (w : World) : Option String :=
  let cs := joinArgs p.cmdline
  let m1 := method1 p.cmdline
  let m2 :=
    if truthyStr m1 then m1
    else
      match regexFallback cs with
      | some g => some g
      | none => m1
  if truthyStr m2 then m2
  else if strIn "--profile-directory" cs then method1 p.cmdline
  else if p.cmdline.length = 1 && endsWith "Google Chrome" p.cmdline.headI then
    guess_profile_for_simple_chrome p.pid profiles detected_keys registry_keys
      w.guessChromeDataDir w.openFiles
  else m2

/-- The fields of the per-profile info dict built by
`_create_browser_instance` (lines 667-678) that the claims are about;
the resource numbers (memory, cpu, status) are runtime samples with no
bearing on the registry and are not modelled. -/
structure ExtInfo where
  pid : Nat
  start_time : Nat
  discovered : Bool
deriving Repr, DecidableEq

/-- Embedding of `_create_browser_instance` (lines 644-683): guard against names
already tracked, insert the new `BrowserInstance` into the registry, and
record the `discovered = True` info entry — unless the info fetch raises
(`w.infoOk` false), in which case the registry keeps the entry but the
returned mapping does not. -/
def create_browser_instance (s : MgrState) (ext : List (String × ExtInfo))
    (profile_name : String) (p : Proc) (base_user_data_dir : String)
    (infoOk : Bool) : MgrState × List (String × ExtInfo) :=
  if (dictLookup profile_name s.running_instances).isSome then (s, ext)
  else
    ({ s with running_instances := (dictInsert profile_name
        ⟨profile_name, p.pid, p.create_time, base_user_data_dir, p.cmdline⟩
        s.running_instances) },
     if infoOk then dictInsert profile_name ⟨p.pid, p.create_time, true⟩ ext else ext)

/-- One iteration of the main loop of `discover_external_browsers`
(lines 512-573): resolve the process, then register it when the
resolution is truthy, names a known profile, and is not in the
registry. -/
def discoverStep (profiles : List ProfileInfo) (w : World)
    (acc : MgrState × List (String × ExtInfo)) (p : Proc) :
    MgrState × List (String × ExtInfo) :=
  match resolveDiscover p profiles (dictKeys acc.2) (dictKeys acc.1.running_instances) w with
  | none => acc
  | some name =>
    if name ≠ "" && profiles.any (fun q => q.name = name)
        && !(dictLookup name acc.1.running_instances).isSome then
      create_browser_instance acc.1 acc.2 name p w.baseUserDataDir (w.infoOk p.pid)
    else acc

/-- Embedding of `discover_external_browsers` (lines 459-578): collect the main
Chrome processes, resolve and adopt each in table order, returning the
`external_browsers` mapping and the updated manager state. -/
def discover_external_browsers (s : MgrState) (profiles : List ProfileInfo)
    (w : World) : List (String × ExtInfo) × MgrState :=
  let res := (w.table.filter isMainChromeProc).foldl (discoverStep profiles w) (s, [])
  (res.2, res.1)

/-! ### Operation words for the registry invariant -/

/-- One externally triggered operation against the manager, as the
claims' "any sequence of launch, close, cleanup, and discovery
operations". -/
inductive Op
  | start (profile : ProfileInfo) (language : Option String) (proxy : Option ProxyConfig)
      (windowSize : Option (Nat × Nat)) (customArgs : Option (List String)) (w : World)
  | close (profile_name : String) (force : Bool) (w : World)
  | cleanup (w : World)
  | discover (profiles : List ProfileInfo) (w : World)

/-- Apply one operation to the manager state, discarding the value it
returns to the caller. -/
def applyOp (s : MgrState) : Op → MgrState
  | .start profile language proxy windowSize customArgs w =>
    (start_browser s profile language proxy windowSize customArgs w).state
  | .close profile_name force w => (close_browser s profile_name force w).2
  | .cleanup w => (check_and_cleanup_stopped_browsers s w).2
  | .discover profiles w => (discover_external_browsers s profiles w).2

/-- Apply a sequence of operations left to right. -/
def applyOps (s : MgrState) (ops : List Op) : MgrState :=
  ops.foldl applyOp s
/-! ### Concrete fixtures used by witnesses and counterexamples -/

/-- A located Chrome executable (first Linux candidate path). -/
def chromeExe : String := "/usr/bin/google-chrome"

/-- A quiet world: empty process table, every probe healthy, Linux base
directories. -/
def baseWorld : World :=
  { table := []
    snapshots := []
    live := fun _ => .up
    term := fun _ => ⟨.ok, false, .ok⟩
    openFiles := fun _ => .denied
    baseUserDataDir := "/root/.config/google-chrome"
    guessChromeDataDir := "/root/Library/Application Support/Google/Chrome"
    now := 1000
    launcherPid := 99
    isDarwin := false
    infoOk := fun _ => true }

/-- A manager that found its executable and tracks nothing. -/
def emptyState : MgrState := { running_instances := [], chrome_executable := some chromeExe }

/-- The `Default` profile of the Linux base directory. -/
def defaultProfile : ProfileInfo :=
  ⟨"Default", "/root/.config/google-chrome/Default", "Default"⟩

/-- A second profile of the Linux base directory. -/
def profileOne : ProfileInfo :=
  ⟨"Profile 1", "/root/.config/google-chrome/Profile 1", "Person 1"⟩

/-- A chrome process outside the registry that uses the independent
data directory of profile `Work`. -/
def externalWorkProc : Proc :=
  ⟨9, "chrome", ["/usr/bin/chrome", "--user-data-dir=/root/.config/Chrome_Instance_Work"], 0⟩

/-- A world whose process table holds only `externalWorkProc`. -/
def worldWithExternalWork : World := { baseWorld with table := [externalWorkProc] }

/-- A tracked instance for profile `Work` with PID 7. -/
def workInstance : BrowserInstance :=
  ⟨"Work", 7, 0, "/root/.config/Chrome_Instance_Work", []⟩

/-- A manager tracking exactly the `Work` instance. -/
def trackedWorkState : MgrState :=
  { running_instances := [("Work", workInstance)], chrome_executable := some chromeExe }

/-- The macOS Chrome executable path produced by bare launches. -/
def macChromePath : String := "/Applications/Google Chrome.app/Contents/MacOS/Google Chrome"

/-- A main Chrome process whose argv carries a user-data-dir flag equal
to the base directory and no profile-directory flag in any form. -/
def baseDirProc : Proc :=
  ⟨11, "Google Chrome", [macChromePath, "--user-data-dir=/root/.config/google-chrome"], 5⟩

/-- A main browser process with the exact psutil name `"Google Chrome"`
using `Default`'s independent data directory: the settle+poll check and
the find step both accept it. -/
def confirmProc : Proc :=
  ⟨8, "Google Chrome",
    ["/usr/bin/google-chrome", "--user-data-dir=/root/.config/Chrome_Instance_Default"], 0⟩

/-- A world in which `confirmProc` is running. -/
def confirmWorld : World := { baseWorld with table := [confirmProc], snapshots := [[confirmProc]] }

/-- A main browser process whose psutil name is lowercase `"chrome"`
(Linux): the settle+poll check accepts it, the find step (which requires
the exact name `"Google Chrome"`) does not. -/
def lowerChromeProc : Proc :=
  ⟨7, "chrome",
    ["/usr/bin/google-chrome", "--user-data-dir=/root/.config/Chrome_Instance_Default"], 0⟩

/-- A world in which only `lowerChromeProc` is running. -/
def unconfirmedWorld : World :=
  { baseWorld with table := [lowerChromeProc], snapshots := [[lowerChromeProc]] }

/-- A bare single-token macOS Chrome launch: no flags at all, so the
resolver must fall back to guessing. -/
def bareChromeProc : Proc := ⟨42, "Google Chrome", [macChromePath], 100⟩

/-- A world holding only the bare single-token Chrome process, with
`open_files` inaccessible. -/
def bareWorld : World := { baseWorld with table := [bareChromeProc] }

/-- A sample operation sequence exercising all four operation kinds. -/
def sampleOps : List Op :=
  [.start defaultProfile none none none none confirmWorld,
   .discover [defaultProfile, profileOne] bareWorld,
   .close "Default" false baseWorld,
   .cleanup baseWorld]

/-! ### Helper lemmas: substring tests -/

theorem infixChars_iff (n : List Char) : ∀ h : List Char, infixChars n h = true ↔ n <:+: h := by
  intro h
  induction h with
  | nil =>
    simp only [infixChars, List.isEmpty_iff]
    exact ⟨fun e => e ▸ List.infix_rfl, fun hi => List.eq_nil_of_infix_nil hi⟩
  | cons c t ih =>
    simp only [infixChars, Bool.or_eq_true, List.isPrefixOf_iff_prefix, ih,
      List.infix_cons_iff]

theorem strIn_eq_true_iff {n h : String} : strIn n h = true ↔ n.data <:+: h.data := by
  simpa [strIn] using infixChars_iff n.data h.data

/-- If a short needle is absent, every needle extending it is absent. -/
theorem strIn_mono_false {n₁ n₂ h : String} (hpre : n₁.data <+: n₂.data)
    (habs : strIn n₁ h = false) : strIn n₂ h = false := by
  cases he : strIn n₂ h with
  | false => rfl
  | true =>
    obtain ⟨s, t, hst⟩ := strIn_eq_true_iff.mp he
    obtain ⟨r, hr⟩ := hpre
    have h1 : strIn n₁ h = true := by
      refine strIn_eq_true_iff.mpr ⟨s, r ++ t, ?_⟩
      rw [← hr] at hst
      simpa [List.append_assoc] using hst
    rw [h1] at habs
    exact habs

/-! ### Helper lemmas: dictionaries -/

theorem dictLookup_dictInsert {β : Type} (k n : String) (v : β) (d : List (String × β)) :
    dictLookup n (dictInsert k v d) = if k = n then some v else dictLookup n d := by
  induction d with
  | nil => simp [dictInsert, dictLookup]
  | cons kv t ih =>
    obtain ⟨k', v'⟩ := kv
    by_cases hk : k' = k
    · subst hk
      by_cases hn : k' = n <;> simp [dictInsert, dictLookup, hn]
    · by_cases hn : k' = n
      · subst hn
        have : ¬ k = k' := fun e => hk e.symm
        simp [dictInsert, dictLookup, hk, this]
      · simp [dictInsert, dictLookup, hk, hn, ih]

@[simp] theorem dictKeys_nil {β : Type} : dictKeys ([] : List (String × β)) = [] := rfl

@[simp] theorem dictKeys_cons {β : Type} (kv : String × β) (t : List (String × β)) :
    dictKeys (kv :: t) = kv.1 :: dictKeys t := rfl

theorem dictKeys_dictInsert {β : Type} (k : String) (v : β) (d : List (String × β)) :
    dictKeys (dictInsert k v d) =
      if k ∈ dictKeys d then dictKeys d else dictKeys d ++ [k] := by
  induction d with
  | nil => simp [dictInsert]
  | cons kv t ih =>
    obtain ⟨k', v'⟩ := kv
    by_cases hk : k' = k
    · subst hk; simp [dictInsert]
    · have hne : ¬ k = k' := fun e => hk e.symm
      by_cases hm : k ∈ dictKeys t
      · simp [dictInsert, hk, hm, ih, hne]
      · simp [dictInsert, hk, hm, ih, hne]

theorem mem_keys_dictInsert {β : Type} {k n : String} {v : β} {d : List (String × β)} :
    n ∈ dictKeys (dictInsert k v d) ↔ n = k ∨ n ∈ dictKeys d := by
  rw [dictKeys_dictInsert]
  by_cases hm : k ∈ dictKeys d
  · simp only [if_pos hm]
    constructor
    · exact Or.inr
    · rintro (rfl | h)
      · exact hm
      · exact h
  · simp only [if_neg hm, List.mem_append, List.mem_singleton]
    tauto

theorem keys_nodup_dictInsert {β : Type} {k : String} {v : β} {d : List (String × β)}
    (h : (dictKeys d).Nodup) : (dictKeys (dictInsert k v d)).Nodup := by
  rw [dictKeys_dictInsert]
  by_cases hm : k ∈ dictKeys d
  · simpa [hm] using h
  · simp [hm, List.nodup_append, h]

theorem dictErase_sublist {β : Type} (k : String) (d : List (String × β)) :
    (dictErase k d).Sublist d := by
  induction d with
  | nil => simp [dictErase]
  | cons kv t ih =>
    obtain ⟨k', v'⟩ := kv
    by_cases hk : k' = k
    · simp only [dictErase, if_pos hk]
      exact List.sublist_cons_self (k', v') t
    · simpa [dictErase, hk] using ih.cons₂ (k', v')

theorem keys_nodup_dictErase {β : Type} {k : String} {d : List (String × β)}
    (h : (dictKeys d).Nodup) : (dictKeys (dictErase k d)).Nodup :=
  List.Nodup.sublist ((dictErase_sublist k d).map Prod.fst) h

theorem dictLookup_eq_none_iff {β : Type} {k : String} {d : List (String × β)} :
    dictLookup k d = none ↔ k ∉ dictKeys d := by
  induction d with
  | nil => simp [dictLookup]
  | cons kv t ih =>
    obtain ⟨k', v'⟩ := kv
    by_cases hk : k' = k
    · subst hk
      simp [dictLookup]
    · have hne : ¬ k = k' := fun e => hk e.symm
      simp [dictLookup, hk, ih, hne]

theorem keys_dictInsert_of_not_mem {β : Type} {k : String} {v : β} {d : List (String × β)}
    (h : k ∉ dictKeys d) : dictKeys (dictInsert k v d) = dictKeys d ++ [k] := by
  simp [dictKeys_dictInsert, h]


/-! ## C8 — argv round-trip -/

/-- Claim C8. For a launch configuration with language `en-US`, an http
proxy at `1.2.3.4:8080`, and window size 1280×720, the argv built by
`start_browser` contains exactly one occurrence of each of
`--lang=en-US`, `--proxy-server=http://1.2.3.4:8080` and
`--window-size=1280,720`, and no element of the argv carries the proxy
username or password. -/
theorem c8_argv_round_trip :
    (buildCmd chromeExe "/root/.config/Chrome_Instance_Work" (some "en-US")
        (some ⟨"http", "1.2.3.4", 8080, "alice", "s3cret"⟩) (some (1280, 720))
        none false).count "--lang=en-US" = 1 ∧
    (buildCmd chromeExe "/root/.config/Chrome_Instance_Work" (some "en-US")
        (some ⟨"http", "1.2.3.4", 8080, "alice", "s3cret"⟩) (some (1280, 720))
        none false).count "--proxy-server=http://1.2.3.4:8080" = 1 ∧
    (buildCmd chromeExe "/root/.config/Chrome_Instance_Work" (some "en-US")
        (some ⟨"http", "1.2.3.4", 8080, "alice", "s3cret"⟩) (some (1280, 720))
        none false).count "--window-size=1280,720" = 1 ∧
    (buildCmd chromeExe "/root/.config/Chrome_Instance_Work" (some "en-US")
        (some ⟨"http", "1.2.3.4", 8080, "alice", "s3cret"⟩) (some (1280, 720))
        none false).all (fun a => !strIn "alice" a && !strIn "s3cret" a) = true := by
  decide

/-! ## C10 — close_browser on absent and vanished instances -/

/-- Claim C10. `close_browser` on a name not in the registry returns
`False` and leaves the registry unchanged; `close_browser` on a tracked
name whose process has already vanished (`NoSuchProcess` raised by the
terminate/kill sequence) still removes the entry and returns `True`. -/
theorem c10_close_browser_absent_and_vanished (s : MgrState) (name : String)
    (force : Bool) (w : World) :
    (dictLookup name s.running_instances = none →
      close_browser s name force w = (false, s)) ∧
    (∀ inst, dictLookup name s.running_instances = some inst →
      closeAttempt force (w.term inst.process_id) = .noSuch →
      close_browser s name force w =
        (true, { s with running_instances := dictErase name s.running_instances })) := by
  constructor
  · intro h
    simp [close_browser, h]
  · intro inst h hns
    simp [close_browser, h, hns]

/-- Concrete check of both parts of `c10_close_browser_absent_and_vanished`:
closing an untracked name fails without touching the registry, and
closing a tracked name whose process vanished removes it and succeeds. -/
theorem c10_close_browser_witness :
    close_browser emptyState "Work" false baseWorld = (false, emptyState) ∧
    close_browser
        { running_instances := [("Work", ⟨"Work", 7, 0, "/root/.config/Chrome_Instance_Work", []⟩)]
          chrome_executable := some chromeExe }
        "Work" false { baseWorld with term := fun _ => ⟨.noSuch, false, .ok⟩ } =
      (true, { running_instances := [], chrome_executable := some chromeExe }) := by
  constructor
  · exact (c10_close_browser_absent_and_vanished emptyState "Work" false baseWorld).1 rfl
  · exact (c10_close_browser_absent_and_vanished _ "Work" false _).2
      ⟨"Work", 7, 0, "/root/.config/Chrome_Instance_Work", []⟩ rfl rfl

/-! ## C2 — running-status query -/





/-- Claim C2, counterexample.  With an empty registry and an external
chrome process using `Work`'s independent directory,
`is_browser_running "Work"` returns `true` even though the registry
holds no entry for that name — refuting "returns true iff the registry
holds an entry for that name whose process is live". -/
theorem c2_counterexample :
    emptyState.running_instances = [] ∧
    is_browser_running emptyState "Work" worldWithExternalWork = (true, emptyState) := by
  decide

/-- Claim C2, amended.  For a name present in the registry, the query
returns the result of the `is_running()` probe and removes the entry
only when that probe raises `NoSuchProcess` (an entry whose probe merely
returns `False` is reported not running but *retained*); for a name
absent from the registry, the query falls through to the external OS
scan and can report `true` with no registry entry at all. -/
theorem c2_running_query_characterization (s : MgrState) (name : String) (w : World) :
    (∀ inst, dictLookup name s.running_instances = some inst →
      (w.live inst.process_id = .up → is_browser_running s name w = (true, s)) ∧
      (w.live inst.process_id = .down → is_browser_running s name w = (false, s)) ∧
      (w.live inst.process_id = .gone →
        is_browser_running s name w =
          (false, { s with running_instances := dictErase name s.running_instances }))) ∧
    (dictLookup name s.running_instances = none →
      is_browser_running s name w = (quick_check_external_browser_running name w, s)) := by
  constructor
  · intro inst h
    refine ⟨fun hl => ?_, fun hl => ?_, fun hl => ?_⟩ <;> simp [is_browser_running, h, hl]
  · intro h
    simp [is_browser_running, h]

/-- Concrete check of `c2_running_query_characterization`: a dead-but-
not-vanished tracked process is reported not running while its entry is
retained, a vanished one is pruned, and an untracked name is answered by
the external scan. -/
theorem c2_running_query_witness :
    is_browser_running trackedWorkState "Work" { baseWorld with live := fun _ => .down } =
      (false, trackedWorkState) ∧
    is_browser_running trackedWorkState "Work" { baseWorld with live := fun _ => .gone } =
      (false, { trackedWorkState with running_instances := [] }) ∧
    is_browser_running emptyState "Work" worldWithExternalWork =
      (quick_check_external_browser_running "Work" worldWithExternalWork, emptyState) := by
  refine ⟨?_, ?_, ?_⟩
  · exact ((c2_running_query_characterization trackedWorkState "Work" _).1 workInstance
      rfl).2.1 rfl
  · exact ((c2_running_query_characterization trackedWorkState "Work" _).1 workInstance
      rfl).2.2 rfl
  · exact (c2_running_query_characterization emptyState "Work" _).2 rfl

/-! ## C5 — user-data-dir matching the base directory -/



/-- Claim C5, counterexample.  `baseDirProc` carries a user-data-dir flag
whose path is exactly the known base directory and no
`--profile-directory` flag in any form, yet the discovery resolver
returns no profile for it (not `"Default"`), and a discovery pass over a
table holding it adopts nothing. -/
theorem c5_counterexample :
    ("--user-data-dir=" ++ baseWorld.baseUserDataDir) ∈ baseDirProc.cmdline ∧
    baseDirProc.cmdline.all
      (fun a => a ≠ "--profile-directory" && !startsWith "--profile-directory=" a) = true ∧
    isMainChromeProc baseDirProc = true ∧
    resolveDiscover baseDirProc [defaultProfile] [] [] baseWorld = none ∧
    discover_external_browsers emptyState [defaultProfile]
      { baseWorld with table := [baseDirProc] } = ([], emptyState) := by
  decide

/-- Claim C5, amended.  Resolution of a base-directory process to
`"Default"` happens only in the quick running-status check: a chrome
process whose joined command line mentions the base user-data directory,
does not mention `Default`'s independent directory, and contains no
`--profile-directory` substring makes
`_quick_check_external_browser_running "Default"` return `true`.  (The
discovery resolver assigns no profile to such an argv; see the
counterexample.) -/
theorem c5_quick_check_default (w : World) (p : Proc)
    (hmem : p ∈ w.table)
    (hname : strIn "chrome" (toLowerStr p.name) = true)
    (hne : p.cmdline ≠ [])
    (hnoindep : strIn (pathJoin (dirname w.baseUserDataDir) "Chrome_Instance_Default")
      (joinArgs p.cmdline) = false)
    (hbase : strIn w.baseUserDataDir (joinArgs p.cmdline) = true)
    (hnoflag : strIn "--profile-directory" (joinArgs p.cmdline) = false) :
    quick_check_external_browser_running "Default" w = true := by
  have hnd : pathJoin (dirname w.baseUserDataDir) ("Chrome_Instance_" ++ "Default") =
      pathJoin (dirname w.baseUserDataDir) "Chrome_Instance_Default" := rfl
  have hnoeq : strIn "--profile-directory=" (joinArgs p.cmdline) = false :=
    strIn_mono_false (by decide) hnoflag
  have hnift : p.cmdline.isEmpty = false := by
    simp [List.isEmpty_iff, hne]
  refine List.any_eq_true.mpr ⟨p, hmem, ?_⟩
  simp only [quickCheckProc, hnd, hname, hnift, hnoindep, hbase, hnoeq]
  simp

/-- Concrete check of `c5_quick_check_default`: with only `baseDirProc`
in the table, `is_running("Default")`'s quick check reports true. -/
theorem c5_quick_check_default_witness :
    quick_check_external_browser_running "Default"
      { baseWorld with table := [baseDirProc] } = true :=
  c5_quick_check_default { baseWorld with table := [baseDirProc] } baseDirProc
    (by decide) (by decide) (by decide) (by decide) (by decide) (by decide)

/-! ## C3 — explicit `--profile-directory` flag forms -/

theorem dropWhile_ne_eq_append (r : List Char) :
    ∀ l₀ : List Char, (∀ c ∈ l₀, c ≠ '=') →
      List.dropWhile (· ≠ '=') (l₀ ++ '=' :: r) = '=' :: r := by
  intro l₀
  induction l₀ with
  | nil => intro _; simp [List.dropWhile]
  | cons c t ih =>
    intro h
    have hc : c ≠ '=' := h c (List.mem_cons_self c t)
    simp only [List.cons_append, List.dropWhile_cons, decide_eq_true hc, if_true]
    exact ih fun b hb => h b (List.mem_cons_of_mem c hb)

theorem afterFirstEq_pd (v : String) : afterFirstEq ("--profile-directory=" ++ v) = v := by
  have h1 : ("--profile-directory=" ++ v).data = "--profile-directory".data ++ '=' :: v.data := by
    rw [String.data_append]
    rfl
  rw [afterFirstEq, h1, dropWhile_ne_eq_append v.data "--profile-directory".data (by decide)]
  rfl

theorem startsWith_self_append (pre v : String) : startsWith pre (pre ++ v) = true := by
  rw [startsWith, String.data_append]
  exact List.isPrefixOf_iff_prefix.mpr (List.prefix_append _ _)

theorem pd_eq_form_ne_token (v : String) : "--profile-directory=" ++ v ≠ "--profile-directory" := by
  intro h
  have hlen : ("--profile-directory=" ++ v).data.length = "--profile-directory".data.length := by
    rw [h]
  rw [String.data_append, List.length_append] at hlen
  have h20 : "--profile-directory=".data.length = 20 := rfl
  have h19 : "--profile-directory".data.length = 19 := rfl
  rw [h20, h19] at hlen
  omega

theorem method1_append_token (ys : List String) (v : String) :
    ∀ xs : List String,
      (∀ a ∈ xs, a ≠ "--profile-directory" ∧ startsWith "--profile-directory=" a = false) →
      method1 (xs ++ "--profile-directory" :: v :: ys) = some v := by
  intro xs
  induction xs with
  | nil => intro _; simp [method1]
  | cons a t ih =>
    intro h
    have ha := h a (List.mem_cons_self a t)
    simp only [List.cons_append, method1, ha.1, ha.2, if_false, Bool.false_eq_true]
    exact ih fun b hb => h b (List.mem_cons_of_mem a hb)

theorem method1_append_eq_form (ys : List String) (v : String) :
    ∀ xs : List String,
      (∀ a ∈ xs, a ≠ "--profile-directory" ∧ startsWith "--profile-directory=" a = false) →
      method1 (xs ++ ("--profile-directory=" ++ v) :: ys) = some v := by
  intro xs
  induction xs with
  | nil =>
    intro _
    simp [method1, pd_eq_form_ne_token v, startsWith_self_append, afterFirstEq_pd]
  | cons a t ih =>
    intro h
    have ha := h a (List.mem_cons_self a t)
    simp only [List.cons_append, method1, ha.1, ha.2, if_false, Bool.false_eq_true]
    exact ih fun b hb => h b (List.mem_cons_of_mem a hb)

/-- Claim C3.  When the argv carries a `--profile-directory` token
immediately followed by the value token `v`, or a single
`--profile-directory=v` token (with `v` taken as the whole remainder of
that element, spaces included), and no earlier token is itself a
profile-directory flag, the discovery resolver returns exactly `v` —
never truncated at a space. -/
theorem c3_explicit_flag_resolution (pid ct : Nat) (nm : String)
    (xs ys ys' : List String) (v : String) (profiles : List ProfileInfo)
    (detected registry : List String) (w : World)
    (hclean : ∀ a ∈ xs, a ≠ "--profile-directory" ∧ startsWith "--profile-directory=" a = false)
    (hv : v ≠ "") :
    resolveDiscover ⟨pid, nm, xs ++ "--profile-directory" :: v :: ys, ct⟩
      profiles detected registry w = some v ∧
    resolveDiscover ⟨pid, nm, xs ++ ("--profile-directory=" ++ v) :: ys', ct⟩
      profiles detected registry w = some v := by
  constructor
  · have hm := method1_append_token ys v xs hclean
    simp [resolveDiscover, hm, truthyStr, hv]
  · have hm := method1_append_eq_form ys' v xs hclean
    simp [resolveDiscover, hm, truthyStr, hv]

/-- Concrete check of `c3_explicit_flag_resolution` on the spec's own
example value `"Profile 2"`: both forms resolve to `"Profile 2"`
intact. -/
theorem c3_explicit_flag_resolution_witness :
    resolveDiscover ⟨21, "Google Chrome",
        [macChromePath, "--profile-directory", "Profile 2", "--no-first-run"], 0⟩
      [defaultProfile] [] [] baseWorld = some "Profile 2" ∧
    resolveDiscover ⟨22, "Google Chrome",
        [macChromePath, "--profile-directory=" ++ "Profile 2"], 0⟩
      [defaultProfile] [] [] baseWorld = some "Profile 2" := by
  constructor
  · exact (c3_explicit_flag_resolution 21 0 "Google Chrome" [macChromePath]
      ["--no-first-run"] [] "Profile 2" [defaultProfile] [] [] baseWorld
      (by decide) (by decide)).1
  · exact (c3_explicit_flag_resolution 22 0 "Google Chrome" [macChromePath]
      [] [] "Profile 2" [defaultProfile] [] [] baseWorld
      (by decide) (by decide)).2

/-! ## C1 — launch confirmation and registry insertion -/





/-- Claim C1, counterexample.  Launching `Default` in `unconfirmedWorld`
reports success (the poll loop confirmed a main chrome process using the
just-requested data directory), yet no `TrackedInstance` is inserted:
the registry is unchanged, refuting "on such a success a TrackedInstance
built from that confirmed process's PID is inserted into the
registry". -/
theorem c1_counterexample :
    (start_browser emptyState defaultProfile none none none none
        unconfirmedWorld).outcome = .unconfirmedSuccess ∧
    (start_browser emptyState defaultProfile none none none none
        unconfirmedWorld).outcome.toBool = true ∧
    (start_browser emptyState defaultProfile none none none none
        unconfirmedWorld).state = emptyState := by
  decide

/-- Claim C1, amended.  With an executable located and the profile not yet
registered: if the settle+poll budget expires with no confirmed process
the call reports `LaunchFailed` and the registry is unchanged; if the
poll confirms and the find step locates the owning process (exact name
`"Google Chrome"`), a `BrowserInstance` carrying that process's PID (not
the launcher's) is inserted under the profile's name; if the poll
confirms but the find step locates nothing, the call still reports
success and the registry is unchanged. -/
theorem c1_launch_confirmation (s : MgrState) (profile : ProfileInfo)
    (language : Option String) (proxy : Option ProxyConfig)
    (windowSize : Option (Nat × Nat)) (customArgs : Option (List String))
    (w : World) (exe : String)
    (hexe : s.chrome_executable = some exe)
    (hfree : dictLookup profile.name s.running_instances = none) :
    (checkLoop (independentDirFor profile) w.snapshots = false →
      start_browser s profile language proxy windowSize customArgs w =
        ⟨.launchFailed, true, s⟩) ∧
    (∀ p, checkLoop (independentDirFor profile) w.snapshots = true →
      findChromeProc (independentDirFor profile) w.table = some p →
      start_browser s profile language proxy windowSize customArgs w =
        ⟨.confirmed, true,
          { s with running_instances := (dictInsert profile.name
              ⟨profile.name, p.pid, w.now, independentDirFor profile,
                buildCmd exe (independentDirFor profile) language proxy windowSize
                  customArgs w.isDarwin⟩
              s.running_instances) }⟩) ∧
    (checkLoop (independentDirFor profile) w.snapshots = true →
      findChromeProc (independentDirFor profile) w.table = none →
      start_browser s profile language proxy windowSize customArgs w =
        ⟨.unconfirmedSuccess, true, s⟩) := by
  refine ⟨fun hcl => ?_, fun p hcl hf => ?_, fun hcl hf => ?_⟩
  · simp [start_browser, hexe, hfree, hcl]
  · simp [start_browser, hexe, hfree, hcl, hf]
  · simp [start_browser, hexe, hfree, hcl, hf]

/-- Concrete check of `c1_launch_confirmation`: in `confirmWorld` the
launch of `Default` is confirmed and the registry gains the confirmed
process's PID 8 (the launcher PID of the world is 99). -/
theorem c1_launch_confirmation_witness :
    start_browser emptyState defaultProfile none none none none confirmWorld =
      ⟨.confirmed, true,
        { running_instances :=
            [("Default",
              ⟨"Default", 8, 1000, "/root/.config/Chrome_Instance_Default",
                [chromeExe, "--user-data-dir=/root/.config/Chrome_Instance_Default",
                  "--no-first-run", "--no-default-browser-check"]⟩)]
          chrome_executable := some chromeExe }⟩ :=
  (c1_launch_confirmation emptyState defaultProfile none none none none confirmWorld
    chromeExe rfl rfl).2.1 confirmProc (by decide) (by decide)

/-! ## C6 — double launch rejection -/

/-- Unfolding lemma: a `confirmed` launch implies the executable was
present, the profile was unregistered, both confirmation steps
succeeded, and the new state is exactly the old one plus the
inserted instance. -/
theorem start_browser_confirmed_shape (s : MgrState) (profile : ProfileInfo)
    (language : Option String) (proxy : Option ProxyConfig)
    (windowSize : Option (Nat × Nat)) (customArgs : Option (List String)) (w : World)
    (h : (start_browser s profile language proxy windowSize customArgs w).outcome =
      .confirmed) :
    ∃ exe p, s.chrome_executable = some exe ∧
      dictLookup profile.name s.running_instances = none ∧
      checkLoop (independentDirFor profile) w.snapshots = true ∧
      findChromeProc (independentDirFor profile) w.table = some p ∧
      (start_browser s profile language proxy windowSize customArgs w).state =
        { s with running_instances := (dictInsert profile.name
            ⟨profile.name, p.pid, w.now, independentDirFor profile,
              buildCmd exe (independentDirFor profile) language proxy windowSize
                customArgs w.isDarwin⟩
            s.running_instances) } := by
  rcases hce : s.chrome_executable with _ | exe
  · simp [start_browser, hce] at h
  rcases hlk : dictLookup profile.name s.running_instances with _ | inst
  case some => simp [start_browser, hce, hlk] at h
  cases hcl : checkLoop (independentDirFor profile) w.snapshots
  · simp [start_browser, hce, hlk, hcl] at h
  rcases hf : findChromeProc (independentDirFor profile) w.table with _ | p
  · simp [start_browser, hce, hlk, hcl, hf] at h
  exact ⟨exe, p, rfl, rfl, rfl, rfl, by simp [start_browser, hce, hlk, hcl, hf]⟩

/-- Claim C6.  After a confirmed launch of profile A, a second launch call
for A (with any configuration and against any world) is rejected by the
registry check before spawning: it returns the `alreadyRunning`
rejection with the state unchanged, and the registry still holds exactly
one entry for A. -/
theorem c6_double_launch_rejected (s : MgrState) (profile : ProfileInfo)
    (l₁ : Option String) (p₁ : Option ProxyConfig) (ws₁ : Option (Nat × Nat))
    (ca₁ : Option (List String)) (w₁ : World)
    (l₂ : Option String) (p₂ : Option ProxyConfig) (ws₂ : Option (Nat × Nat))
    (ca₂ : Option (List String)) (w₂ : World)
    (h : (start_browser s profile l₁ p₁ ws₁ ca₁ w₁).outcome = .confirmed) :
    start_browser (start_browser s profile l₁ p₁ ws₁ ca₁ w₁).state profile
        l₂ p₂ ws₂ ca₂ w₂ =
      ⟨.alreadyRunning, false, (start_browser s profile l₁ p₁ ws₁ ca₁ w₁).state⟩ ∧
    ((dictKeys (start_browser s profile l₁ p₁ ws₁ ca₁ w₁).state.running_instances).count
      profile.name) = 1 := by
  obtain ⟨exe, p, hce, hlk, hcl, hf, hstate⟩ :=
    start_browser_confirmed_shape s profile l₁ p₁ ws₁ ca₁ w₁ h
  have hnot : profile.name ∉ dictKeys s.running_instances := dictLookup_eq_none_iff.mp hlk
  set s₁ := (start_browser s profile l₁ p₁ ws₁ ca₁ w₁).state with hs₁
  have hkeys : dictKeys s₁.running_instances =
      dictKeys s.running_instances ++ [profile.name] := by
    rw [hstate]
    exact keys_dictInsert_of_not_mem hnot
  constructor
  · have hce2 : s₁.chrome_executable = some exe := by
      rw [hstate]
      exact hce
    have hlk2 : (dictLookup profile.name s₁.running_instances).isSome = true := by
      rw [hstate]
      simp [dictLookup_dictInsert]
    simp [start_browser, hce2, hlk2]
  · rw [hkeys]
    simp [List.count_append, List.count_eq_zero.mpr hnot]

/-- Concrete check of `c6_double_launch_rejected`: launch `Default` in
`confirmWorld`, then immediately launch it again — the second call is
rejected, the registry keeps exactly one `Default` entry. -/
theorem c6_double_launch_rejected_witness :
    start_browser (start_browser emptyState defaultProfile none none none none
        confirmWorld).state defaultProfile none none none none confirmWorld =
      ⟨.alreadyRunning, false,
        (start_browser emptyState defaultProfile none none none none confirmWorld).state⟩ ∧
    ((dictKeys (start_browser emptyState defaultProfile none none none none
        confirmWorld).state.running_instances).count defaultProfile.name) = 1 :=
  c6_double_launch_rejected emptyState defaultProfile none none none none confirmWorld
    none none none none confirmWorld (by decide)

/-! ## C4 — the open-files / claim-order guess -/

theorem lexLt_irrefl (a : List Char) : lexLtChars a a = false := by
  induction a with
  | nil => rfl
  | cons x xs ih => simp [lexLtChars, ih]

theorem lexLt_asymm (a : List Char) :
    ∀ b, lexLtChars a b = true → lexLtChars b a = false := by
  induction a with
  | nil =>
    intro b hb
    cases b with
    | nil => simp [lexLtChars] at hb
    | cons y ys => rfl
  | cons x xs ih =>
    intro b hb
    cases b with
    | nil => simp [lexLtChars] at hb
    | cons y ys =>
      by_cases h1 : x.toNat < y.toNat
      · have h2 : ¬ y.toNat < x.toNat := by omega
        simp [lexLtChars, h1, h2]
      · by_cases h2 : y.toNat < x.toNat
        · simp [lexLtChars, h1, h2] at hb
        · simp [lexLtChars, h1, h2] at hb ⊢
          exact ih ys hb

theorem lexLt_eq_of_both_false (a : List Char) :
    ∀ b, lexLtChars a b = false → lexLtChars b a = false → a = b := by
  induction a with
  | nil =>
    intro b h1 _
    cases b with
    | nil => rfl
    | cons y ys => simp [lexLtChars] at h1
  | cons x xs ih =>
    intro b h1 h2
    cases b with
    | nil => simp [lexLtChars] at h2
    | cons y ys =>
      by_cases ha : x.toNat < y.toNat
      · simp [lexLtChars, ha] at h1
      · by_cases hb : y.toNat < x.toNat
        · simp [lexLtChars, ha, hb] at h2
        · have hxy : x = y := by
            apply Char.eq_of_val_eq
            apply UInt32.toNat.inj
            have ha2 : ¬ x.val.toNat < y.val.toNat := ha
            have hb2 : ¬ y.val.toNat < x.val.toNat := hb
            omega
          simp [lexLtChars, ha, hb] at h1 h2
          rw [hxy, ih ys h1 h2]

theorem lexLt_trans (a : List Char) :
    ∀ b c, lexLtChars a b = true → lexLtChars b c = true → lexLtChars a c = true := by
  induction a with
  | nil =>
    intro b c h1 h2
    cases b with
    | nil => simp [lexLtChars] at h1
    | cons y ys =>
      cases c with
      | nil => simp [lexLtChars] at h2
      | cons z zs => rfl
  | cons x xs ih =>
    intro b c h1 h2
    cases b with
    | nil => simp [lexLtChars] at h1
    | cons y ys =>
      cases c with
      | nil => simp [lexLtChars] at h2
      | cons z zs =>
        by_cases h3 : x.toNat < z.toNat
        · simp [lexLtChars, h3]
        · by_cases hxy : x.toNat < y.toNat
          · by_cases hyz : y.toNat < z.toNat
            · exact absurd (Nat.lt_trans hxy hyz) h3
            · by_cases hzy : z.toNat < y.toNat
              · simp [lexLtChars, hyz, hzy] at h2
              · have hyzeq : y.toNat = z.toNat := by omega
                exact absurd (hyzeq ▸ hxy) h3
          · by_cases hyx : y.toNat < x.toNat
            · simp [lexLtChars, hxy, hyx] at h1
            · have hxyeq : x.toNat = y.toNat := by omega
              by_cases hyz : y.toNat < z.toNat
              · exact absurd (hxyeq.symm ▸ hyz) h3
              · by_cases hzy : z.toNat < y.toNat
                · simp [lexLtChars, hyz, hzy] at h2
                · have h4 : ¬ z.toNat < x.toNat := by omega
                  simp [lexLtChars, hxy, hyx] at h1
                  simp [lexLtChars, hyz, hzy] at h2
                  simp [lexLtChars, h3, h4]
                  exact ih ys zs h1 h2

theorem strLeB_refl (s : String) : strLeB s s = true := by
  rw [strLeB, lexLt_irrefl]
  rfl

theorem strLeB_total (s t : String) : strLeB s t = true ∨ strLeB t s = true := by
  unfold strLeB
  cases h : lexLtChars t.data s.data with
  | false => exact Or.inl rfl
  | true =>
    right
    rw [lexLt_asymm t.data s.data h]
    rfl

theorem strLeB_trans (s t u : String) (h1 : strLeB s t = true) (h2 : strLeB t u = true) :
    strLeB s u = true := by
  rw [strLeB, Bool.not_eq_true'] at h1 h2 ⊢
  cases hus : lexLtChars u.data s.data with
  | false => rfl
  | true =>
    exfalso
    cases htu : lexLtChars t.data u.data with
    | false =>
      have he : t.data = u.data := lexLt_eq_of_both_false t.data u.data htu h2
      rw [← he] at hus
      rw [h1] at hus
      cases hus
    | true =>
      have hts := lexLt_trans t.data u.data s.data htu hus
      rw [h1] at hts
      cases hts

theorem profLe_refl (p : ProfileInfo) : profLe p p := by
  unfold profLe profLeB
  rw [if_pos rfl]
  exact strLeB_refl p.name

theorem profLe_total (p q : ProfileInfo) : profLe p q ∨ profLe q p := by
  unfold profLe profLeB
  by_cases h : (decide (p.name ≠ "Default")) = (decide (q.name ≠ "Default"))
  · rw [if_pos h, if_pos h.symm]
    exact strLeB_total p.name q.name
  · rw [if_neg h, if_neg (Ne.symm h)]
    cases hp : decide (p.name ≠ "Default") <;> cases hq : decide (q.name ≠ "Default") <;>
      simp_all

theorem profLe_trans (p q r : ProfileInfo) (h1 : profLe p q) (h2 : profLe q r) :
    profLe p r := by
  unfold profLe profLeB at h1 h2 ⊢
  by_cases hab : (decide (p.name ≠ "Default")) = (decide (q.name ≠ "Default")) <;>
    by_cases hbc : (decide (q.name ≠ "Default")) = (decide (r.name ≠ "Default"))
  · rw [if_pos hab] at h1
    rw [if_pos hbc] at h2
    rw [if_pos (hab.trans hbc)]
    exact strLeB_trans p.name q.name r.name h1 h2
  · rw [if_pos hab] at h1
    rw [if_neg hbc] at h2
    have hac : ¬ (decide (p.name ≠ "Default")) = (decide (r.name ≠ "Default")) := by
      rw [hab]
      exact hbc
    rw [if_neg hac, hab]
    exact h2
  · rw [if_neg hab] at h1
    have hac : ¬ (decide (p.name ≠ "Default")) = (decide (r.name ≠ "Default")) := by
      rw [← hbc]
      exact hab
    rw [if_neg hac]
    exact h1
  · rw [if_neg hab] at h1
    rw [if_neg hbc] at h2
    cases hA : decide (p.name ≠ "Default") <;> cases hB : decide (q.name ≠ "Default") <;>
      simp_all

/-- Claim C4.  For a bare single-token launch whose open-file inspection
yields no match (access denied, or no file path resolves to an
unclaimed known profile), the guesser returns the claim-order fallback:
`None` exactly when every known profile is already claimed (recorded
this pass or tracked in the registry), and otherwise some unclaimed
known profile that is minimal for the key `(name != "Default", name)` —
`Default` first, then lexical order — and in particular never a name
already claimed in the pass. -/
theorem c4_fallback_guess (chrome_pid : Nat) (profiles : List ProfileInfo)
    (detected registry : List String) (chrome_data_dir : String)
    (ofr : Nat → OpenFilesRes)
    (hnomatch : ofr chrome_pid = .denied ∨
      ∃ paths, ofr chrome_pid = .files paths ∧
        guessFromOpenFiles chrome_data_dir profiles detected paths = none) :
    let G := guess_profile_for_simple_chrome chrome_pid profiles detected registry
      chrome_data_dir ofr
    let avail := profiles.filter fun p =>
      !detected.contains p.name && !registry.contains p.name
    (avail = [] → G = none) ∧
    (avail ≠ [] → ∃ p₀, p₀ ∈ avail ∧ G = some p₀.name ∧
      detected.contains p₀.name = false ∧ registry.contains p₀.name = false ∧
      ∀ q ∈ avail, profLe p₀ q) ∧
    ((∃ p ∈ avail, p.name = "Default") → G = some "Default") := by
  intro G avail
  haveI htotI : IsTotal ProfileInfo profLe := ⟨profLe_total⟩
  haveI htransI : IsTrans ProfileInfo profLe := ⟨profLe_trans⟩
  have hG : G = guessFallback profiles detected registry := by
    rcases hnomatch with h | ⟨paths, h1, h2⟩
    · simp [G, guess_profile_for_simple_chrome, h]
    · simp [G, guess_profile_for_simple_chrome, h1, h2]
  have hperm : (List.insertionSort profLe avail).Perm avail :=
    List.perm_insertionSort profLe avail
  have hmain : (avail = [] → G = none) ∧
      (avail ≠ [] → ∃ p₀, p₀ ∈ avail ∧ G = some p₀.name ∧
        detected.contains p₀.name = false ∧ registry.contains p₀.name = false ∧
        ∀ q ∈ avail, profLe p₀ q) := by
    constructor
    · intro hav
      rw [hG]
      unfold guessFallback
      rw [show (profiles.filter fun p =>
        !detected.contains p.name && !registry.contains p.name) = avail from rfl, hav]
      rfl
    · intro hav
      cases hL : List.insertionSort profLe avail with
      | nil => exact absurd (hL ▸ hperm).symm.eq_nil hav
      | cons p₀ t =>
        have hmem : p₀ ∈ avail := hperm.mem_iff.mp (by rw [hL]; exact List.mem_cons_self p₀ t)
        have hfacts := List.mem_filter.mp hmem
        have hdet : detected.contains p₀.name = false := by
          have := hfacts.2
          simp only [Bool.and_eq_true, Bool.not_eq_true'] at this
          exact this.1
        have hreg : registry.contains p₀.name = false := by
          have := hfacts.2
          simp only [Bool.and_eq_true, Bool.not_eq_true'] at this
          exact this.2
        have hsorted := List.sorted_insertionSort profLe avail
        rw [hL] at hsorted
        have hmin : ∀ q ∈ avail, profLe p₀ q := by
          intro q hq
          have hq' : q ∈ p₀ :: t := by
            rw [← hL]
            exact hperm.mem_iff.mpr hq
          rcases List.mem_cons.mp hq' with rfl | hq''
          · exact profLe_refl q
          · exact (List.sorted_cons.mp hsorted).1 q hq''
        refine ⟨p₀, hmem, ?_, hdet, hreg, hmin⟩
        rw [hG]
        unfold guessFallback
        show (match List.insertionSort profLe avail with
          | [] => none
          | p :: _ => some p.name) = some p₀.name
        rw [hL]
  refine ⟨hmain.1, hmain.2, ?_⟩
  rintro ⟨pD, hpD, hname⟩
  have hav : avail ≠ [] := by
    intro hnil
    rw [hnil] at hpD
    exact absurd hpD (List.not_mem_nil pD)
  obtain ⟨p₀, hmem, hGeq, hdet, hreg, hmin⟩ := hmain.2 hav
  have hle := hmin pD hpD
  unfold profLe profLeB at hle
  have hD : decide (pD.name ≠ "Default") = false := by
    simp [hname]
  cases hA : decide (p₀.name ≠ "Default") with
  | false =>
    have : p₀.name = "Default" := by
      simpa using hA
    rw [hGeq, this]
  | true =>
    rw [hA, hD] at hle
    simp at hle

/-- Concrete check of `c4_fallback_guess`: with open files inaccessible
and profiles `Profile 1` and `Default` unclaimed, the guess prefers
`Default`. -/
theorem c4_fallback_guess_witness :
    guess_profile_for_simple_chrome 42 [profileOne, defaultProfile] [] []
      baseWorld.guessChromeDataDir baseWorld.openFiles = some "Default" := by
  have h := c4_fallback_guess 42 [profileOne, defaultProfile] [] []
    baseWorld.guessChromeDataDir baseWorld.openFiles (Or.inl rfl)
  exact h.2.2 ⟨defaultProfile, by decide, rfl⟩

/-! ## C7 — discovery is not idempotent -/



/-- Claim C7, counterexample.  Over a fixed process table holding one bare
single-token Chrome process and known profiles `Default` and
`Profile 1`, the first discovery call adopts `Default` — and the second
call, far from registering nothing, adopts `Profile 1` for the very
same process, because the claim-order fallback re-resolves it to the
next unclaimed profile.  Discovery is therefore not idempotent. -/
theorem c7_counterexample :
    (discover_external_browsers emptyState [defaultProfile, profileOne] bareWorld).1 =
      [("Default", ⟨42, 100, true⟩)] ∧
    (discover_external_browsers
        (discover_external_browsers emptyState [defaultProfile, profileOne] bareWorld).2
        [defaultProfile, profileOne] bareWorld).1 =
      [("Profile 1", ⟨42, 100, true⟩)] := by
  decide

theorem discoverStep_preserves (profiles : List ProfileInfo) (w : World)
    (acc : MgrState × List (String × ExtInfo)) (p : Proc) (n : String)
    (i : BrowserInstance) (h : dictLookup n acc.1.running_instances = some i) :
    dictLookup n (discoverStep profiles w acc p).1.running_instances = some i := by
  unfold discoverStep
  split
  · exact h
  · split
    next hg =>
      unfold create_browser_instance
      split
      next hs => exact h
      next hs =>
        have hnone : dictLookup _ acc.1.running_instances = none :=
          Option.not_isSome_iff_eq_none.mp hs
      -- the inserted key was absent, so every present key is untouched
        rw [dictLookup_dictInsert]
        split
        next he =>
          rw [← he, hnone] at h
          cases h
        next he => exact h
    next hg => exact h

theorem foldl_discoverStep_preserves (profiles : List ProfileInfo) (w : World)
    (ps : List Proc) :
    ∀ acc (n : String) (i : BrowserInstance),
      dictLookup n acc.1.running_instances = some i →
      dictLookup n (ps.foldl (discoverStep profiles w) acc).1.running_instances = some i := by
  induction ps with
  | nil => intro acc n i h; exact h
  | cons p ps ih =>
    intro acc n i h
    exact ih _ n i (discoverStep_preserves profiles w acc p n i h)

/-- Claim C7, amended.  Discovery never re-registers or modifies an entry
already in the registry: every tracked instance survives a discovery
pass unchanged; in particular every profile adopted by a first call is
in the registry and is left intact (skipped) by a second call.  (The
second call can nevertheless adopt *additional* profiles for the same
processes via the claim-order fallback — see the counterexample — so
discovery as a whole is not idempotent.) -/
theorem c7_discovery_skips_tracked (s : MgrState) (profiles : List ProfileInfo) (w : World) :
    (∀ n i, dictLookup n s.running_instances = some i →
      dictLookup n (discover_external_browsers s profiles w).2.running_instances = some i) ∧
    (∀ (profiles' : List ProfileInfo) (w' : World) n i,
      dictLookup n (discover_external_browsers s profiles w).2.running_instances = some i →
      dictLookup n (discover_external_browsers
        (discover_external_browsers s profiles w).2 profiles' w').2.running_instances =
          some i) := by
  constructor
  · intro n i h
    exact foldl_discoverStep_preserves profiles w _ (s, []) n i h
  · intro profiles' w' n i h
    exact foldl_discoverStep_preserves profiles' w' _ (_, []) n i h

/-- Concrete check of `c7_discovery_skips_tracked`: a tracked entry
for `Work` survives a discovery pass (which meanwhile adopts
`Default`) without modification. -/
theorem c7_discovery_skips_tracked_witness :
    dictLookup "Work" (discover_external_browsers trackedWorkState
      [defaultProfile, profileOne] bareWorld).2.running_instances = some workInstance :=
  (c7_discovery_skips_tracked trackedWorkState [defaultProfile, profileOne] bareWorld).1
    "Work" workInstance rfl

/-! ## C9 — registry key uniqueness -/

theorem start_browser_state_cases (s : MgrState) (profile : ProfileInfo)
    (language : Option String) (proxy : Option ProxyConfig)
    (windowSize : Option (Nat × Nat)) (customArgs : Option (List String)) (w : World) :
    (start_browser s profile language proxy windowSize customArgs w).state = s ∨
    ∃ inst, (start_browser s profile language proxy windowSize customArgs w).state =
      { s with running_instances := (dictInsert profile.name inst s.running_instances) } := by
  rcases hce : s.chrome_executable with _ | exe
  · left
    simp [start_browser, hce]
  by_cases hlk : (dictLookup profile.name s.running_instances).isSome = true
  · left
    simp [start_browser, hce, hlk]
  cases hcl : checkLoop (independentDirFor profile) w.snapshots
  · left
    simp [start_browser, hce, hlk, hcl]
  rcases hf : findChromeProc (independentDirFor profile) w.table with _ | p
  · left
    simp [start_browser, hce, hlk, hcl, hf]
  · right
    refine ⟨⟨profile.name, p.pid, w.now, independentDirFor profile,
      buildCmd exe (independentDirFor profile) language proxy windowSize customArgs
        w.isDarwin⟩, ?_⟩
    simp [start_browser, hce, hlk, hcl, hf]

theorem close_browser_state_cases (s : MgrState) (name : String) (force : Bool) (w : World) :
    (close_browser s name force w).2 = s ∨
    (close_browser s name force w).2 =
      { s with running_instances := dictErase name s.running_instances } := by
  rcases h : dictLookup name s.running_instances with _ | inst
  · left
    simp [close_browser, h]
  · cases hc : closeAttempt force (w.term inst.process_id)
    · right
      simp [close_browser, h, hc]
    · right
      simp [close_browser, h, hc]
    · left
      simp [close_browser, h, hc]

theorem discoverStep_nodup (profiles : List ProfileInfo) (w : World)
    (acc : MgrState × List (String × ExtInfo)) (p : Proc)
    (h : (dictKeys acc.1.running_instances).Nodup) :
    (dictKeys (discoverStep profiles w acc p).1.running_instances).Nodup := by
  unfold discoverStep
  split
  · exact h
  · split
    · unfold create_browser_instance
      split
      · exact h
      · exact keys_nodup_dictInsert h
    · exact h

theorem foldl_discoverStep_nodup (profiles : List ProfileInfo) (w : World) (ps : List Proc) :
    ∀ acc, (dictKeys acc.1.running_instances).Nodup →
      (dictKeys ((ps.foldl (discoverStep profiles w) acc)).1.running_instances).Nodup := by
  induction ps with
  | nil => intro acc h; exact h
  | cons p ps ih =>
    intro acc h
    exact ih _ (discoverStep_nodup profiles w acc p h)

theorem applyOp_nodup (s : MgrState) (op : Op)
    (h : (dictKeys s.running_instances).Nodup) :
    (dictKeys (applyOp s op).running_instances).Nodup := by
  cases op with
  | start profile language proxy windowSize customArgs w =>
    rcases start_browser_state_cases s profile language proxy windowSize customArgs w with
      hc | ⟨inst, hc⟩
    · rw [applyOp, hc]
      exact h
    · rw [applyOp, hc]
      exact keys_nodup_dictInsert h
  | close name force w =>
    rcases close_browser_state_cases s name force w with hc | hc
    · rw [applyOp, hc]
      exact h
    · rw [applyOp, hc]
      exact keys_nodup_dictErase h
  | cleanup w =>
    rw [applyOp]
    unfold check_and_cleanup_stopped_browsers
    exact List.Nodup.sublist ((List.filter_sublist _).map Prod.fst) h
  | discover profiles w =>
    rw [applyOp]
    unfold discover_external_browsers
    exact foldl_discoverStep_nodup profiles w _ (s, []) h

/-- Claim C9.  Registry key uniqueness is an invariant: starting from a
registry with no duplicate profile names, any sequence of launch, close,
cleanup and discovery operations leaves the registry with at most one
tracked instance per profile name. -/
theorem c9_registry_unique (ops : List Op) :
    ∀ s : MgrState, (dictKeys s.running_instances).Nodup →
      (dictKeys (applyOps s ops).running_instances).Nodup := by
  induction ops with
  | nil => intro s h; exact h
  | cons op ops ih =>
    intro s h
    exact ih (applyOp s op) (applyOp_nodup s op h)


/-- Concrete check of `c9_registry_unique` on `sampleOps` from the empty
registry. -/
theorem c9_registry_unique_witness :
    (dictKeys (applyOps emptyState sampleOps).running_instances).Nodup :=
  c9_registry_unique sampleOps emptyState (by decide)

end MulBrowsers
